import Mathlib

/-!
# Verification of the Unomi MCP server against its specification

Shallow embedding of the `inoyu-mcp-unomi-server` repository: the argument
validators and session-id generator from `src/types.ts`, and the profile
resolver, scope ensurer and tool dispatcher from the main server module.

JSON-derived JavaScript values are modelled by the inductive `Json`; property
access, `typeof`, truthiness, `Object.entries` and `Object.keys` are modelled
by total functions matching JavaScript semantics on JSON-derived data.
Remote HTTP calls are modelled by an explicit environment of responses
(`HttpResult`) and every operation returns, next to its result, the trace of
outbound requests it issued (`List RemoteCall`).
-/

set_option autoImplicit false

namespace UnomiServer

/-- A JSON value, as delivered to the server by `JSON.parse` (tool-call
arguments) or by the HTTP client (response bodies). Numbers are modelled as
integers: only `typeof`-level distinctions and smallish literals matter here. -/
inductive Json where
  | null : Json
  | bool : Bool → Json
  | num : Int → Json
  | str : String → Json
  | arr : List Json → Json
  | obj : List (String × Json) → Json

/-- JavaScript `typeof` on a JSON-derived value (`typeof null === "object"`,
and arrays are `"object"` as well). -/
def typeof : Json → String
  | .null => "object"
  | .bool _ => "boolean"
  | .num _ => "number"
  | .str _ => "string"
  | .arr _ => "object"
  | .obj _ => "object"

/-- Is the value the JavaScript `null` literal? -/
def isNullJ : Json → Bool
  | .null => true
  | _ => false

/-- JavaScript falsiness of a JSON-derived value (`null`, `false`, `0`, `""`). -/
def falsy : Json → Bool
  | .null => true
  | .bool b => !b
  | .num n => n == 0
  | .str s => s == ""
  | _ => false

/-- Property access `v[k]`; `none` models the JavaScript `undefined` result.
On arrays, the numeric index strings and `"length"` are accessible, as in
JavaScript (prototype-inherited members never occur in JSON data). -/
def getField : Json → String → Option Json
  | .obj kvs, k => (kvs.find? (fun p => p.1 == k)).map Prod.snd
  | .arr xs, k =>
    if k == "length" then some (.num (Int.ofNat xs.length))
    else
      match (List.range xs.length).find? (fun i => toString i == k) with
      | some i => xs[i]?
      | none => none
  | _, _ => none

/-- The JavaScript `in` operator on a JSON-derived value (key presence;
false on primitives, where the guarded validator code never reaches it). -/
def hasKey : Json → String → Bool
  | .obj kvs, k => kvs.any (fun p => p.1 == k)
  | .arr xs, k => (List.range xs.length).any (fun i => toString i == k) || k == "length"
  | _, _ => false

/-- `typeof v[k]`, with `"undefined"` for an absent property. -/
def typeofGet (v : Json) (k : String) : String :=
  match getField v k with
  | some w => typeof w
  | none => "undefined"

/-- `Object.entries` on a JSON-derived value (index/element pairs on arrays,
empty on primitives). -/
def jsEntries : Json → List (String × Json)
  | .obj kvs => kvs
  | .arr xs => (List.range xs.length).map (fun i => (toString i, xs.getD i .null))
  | _ => []

/-- `Object.keys` on a JSON-derived value. -/
def jsKeys : Json → List String
  | .obj kvs => kvs.map Prod.fst
  | .arr xs => (List.range xs.length).map toString
  | .str s => (List.range s.length).map toString
  | _ => []

/-- Build a JSON object from optional entries, dropping the absent ones:
this is how `JSON.stringify` and the HTTP client serialize a JavaScript
object literal some of whose fields are `undefined`. -/
def objDropU (kvs : List (String × Option Json)) : Json :=
  .obj (kvs.filterMap (fun p => p.2.map (fun v => (p.1, v))))

/-! ## Argument validators (`src/types.ts`) -/

/-- `isValidGetProfileArgs` from `src/types.ts`. -/
def isValidGetProfileArgs (args : Json) : Bool :=
  typeof args == "object" && !(isNullJ args) &&
  hasKey args "profileId" && typeofGet args "profileId" == "string"

/-- `isValidSearchProfilesArgs` from `src/types.ts`. -/
def isValidSearchProfilesArgs (args : Json) : Bool :=
  typeof args == "object" && !(isNullJ args) &&
  hasKey args "query" && typeofGet args "query" == "string" &&
  ((getField args "limit").isNone || typeofGet args "limit" == "number") &&
  ((getField args "offset").isNone || typeofGet args "offset" == "number")

/-- `isValidGetMyProfileArgs` from `src/types.ts`. -/
def isValidGetMyProfileArgs (args : Json) : Bool :=
  typeof args == "object" && !(isNullJ args) &&
  ((getField args "requireSegments").isNone || typeofGet args "requireSegments" == "boolean") &&
  ((getField args "requireScores").isNone || typeofGet args "requireScores" == "boolean")

/-- `isValidUpdateMyProfileArgs` from `src/types.ts`. -/
def isValidUpdateMyProfileArgs (args : Json) : Bool :=
  typeof args == "object" && !(isNullJ args) &&
  hasKey args "properties" &&
  typeofGet args "properties" == "object" &&
  !(match getField args "properties" with
    | some v => isNullJ v
    | none => false) &&
  (jsEntries ((getField args "properties").getD .null)).all (fun p =>
    isNullJ p.2 || typeof p.2 == "string" || typeof p.2 == "number" ||
    typeof p.2 == "boolean")

/-- `isValidCreateScopeArgs` from `src/types.ts`. -/
def isValidCreateScopeArgs (args : Json) : Bool :=
  typeof args == "object" && !(isNullJ args) &&
  hasKey args "scope" && typeofGet args "scope" == "string" &&
  ((getField args "name").isNone || typeofGet args "name" == "string") &&
  ((getField args "description").isNone || typeofGet args "description" == "string")

/-! ## Session identifier generator (`src/types.ts`) -/

/-- A UTC calendar date, the only part of `new Date()` that
`generateSessionId` observes. -/
structure UTCDate where
  year : Nat
  month : Nat
  day : Nat
deriving DecidableEq

/-- A calendar date representable in the `toISOString` fixed format. -/
def UTCDate.Valid (d : UTCDate) : Prop :=
  1 ≤ d.month ∧ d.month ≤ 12 ∧ 1 ≤ d.day ∧ d.day ≤ 31 ∧ d.year ≤ 9999

instance (d : UTCDate) : Decidable d.Valid := by
  unfold UTCDate.Valid; infer_instance

/-- A decimal digit character. -/
def digitChar : Nat → Char
  | 0 => '0' | 1 => '1' | 2 => '2' | 3 => '3' | 4 => '4'
  | 5 => '5' | 6 => '6' | 7 => '7' | 8 => '8' | _ => '9'

/-- The `YYYYMMDD` string produced by taking the date part of
`now.toISOString()` and deleting the dashes: the zero-padded four-digit year
followed by the zero-padded two-digit month and day. -/
def datePart (d : UTCDate) : String :=
  String.mk [digitChar (d.year / 1000 % 10), digitChar (d.year / 100 % 10),
             digitChar (d.year / 10 % 10), digitChar (d.year % 10),
             digitChar (d.month / 10 % 10), digitChar (d.month % 10),
             digitChar (d.day / 10 % 10), digitChar (d.day % 10)]

/-- `generateSessionId` from `src/types.ts`, with the current UTC date passed
explicitly (the only impurity of the source function). -/
def generateSessionId (profileId : String) (d : UTCDate) : String :=
  profileId ++ "-" ++ datePart d

/-! ## The server module: remote-call model -/

/-- Outcome of one outbound HTTP call: a response (status plus parsed body),
or a transport-level (axios) failure. -/
inductive HttpResult where
  | ok (status : Nat) (data : Json)
  | fail

/-- One outbound request to the remote Unomi service, tagged by endpoint. -/
inductive RemoteCall where
  | searchPost (body : Json)
  | contextPost (body : Json)
  | scopeGet (scope : String)
  | scopePost (body : Json)
  | profileGet (profileId : Json)

/-- The process-wide configuration read from the environment at startup.
`UNOMI_USERNAME`, `UNOMI_PASSWORD`, `UNOMI_KEY` only feed transport headers
and are omitted; `profileId` is `UNOMI_PROFILE_ID` (required non-empty),
`sourceId` is `UNOMI_SOURCE_ID`, and `email` is `some` exactly when
`UNOMI_EMAIL` is set to a truthy value. -/
structure Config where
  profileId : String
  sourceId : String
  email : Option String

/-- The remote service's responses to the calls one tool invocation can
issue, in program order: the scope existence check, the scope creation, the
lookup-by-email, the best-effort email write, and the primary action. -/
structure Env where
  scopeGetResp : HttpResult
  scopePostResp : HttpResult
  lookupResp : HttpResult
  emailWriteResp : HttpResult
  primaryResp : HttpResult

/-- The fault codes of the protocol errors (`McpError`) the server raises. -/
inductive ErrorCode where
  | invalidParams
  | methodNotFound
  | internalError
  | invalidRequest
deriving DecidableEq

/-- A protocol-level fault thrown to the caller (`McpError`); the
human-readable message is not modelled. -/
structure McpError where
  code : ErrorCode
deriving DecidableEq

/-- A tool call's normal return value: a success payload, or the
`isError: true` content produced from a caught transport failure (its
message text is not modelled). -/
inductive ToolResult where
  | success (payload : Json)
  | errorContent

/-- The fixed `source` descriptor placed in every Context Request. -/
def sourceObj (cfg : Config) : Json :=
  .obj [("itemId", .str cfg.sourceId), ("itemType", .str "claude"),
        ("scope", .str "claude-desktop")]

/-! ## Profile resolver (`findProfileByEmail`, `getEffectiveProfileId`) -/

/-- The search body `findProfileByEmail` posts to `/cxs/profiles/search`. -/
def emailSearchBody (email : String) : Json :=
  .obj [("condition", .obj [
          ("type", .str "profilePropertyCondition"),
          ("parameterValues", .obj [
            ("propertyName", .str "properties.email"),
            ("comparisonOperator", .str "equals"),
            ("propertyValue", .str email)])]),
        ("limit", .num 1)]

/-- `response.data.list.length > 0`: JavaScript `length > 0` on the `list`
field (an absent `length`, i.e. `undefined`, compares false; `list` is an
array in every response the remote service produces). -/
def jsLengthPos (j : Json) : Bool :=
  match getField j "length" with
  | some (.num n) => 0 < n
  | _ => false

/-- `findProfileByEmail` from the server module: posts the exact-match email
search and decodes `response.data.list[0].itemId` when
`response.data && response.data.list && response.data.list.length > 0`,
returning `null` otherwise — including on any transport failure, which the
`catch` block logs and converts to `null`. Unomi item ids are strings; a
non-string `itemId` is treated as absent. Returns the decoded id together
with the single search request issued. -/
def findProfileByEmail (email : String) (resp : HttpResult) :
    Option String × List RemoteCall :=
  let call := RemoteCall.searchPost (emailSearchBody email)
  match resp with
  | .fail => (none, [call])
  | .ok _ data =>
    let list := (getField data "list").getD .null
    if !(falsy data) && !(falsy list) && jsLengthPos list then
      match getField ((getField list "0").getD .null) "itemId" with
      | some (.str s) => (some s, [call])
      | _ => (none, [call])
    else (none, [call])

/-- The Context Request `getEffectiveProfileId` posts to set the configured
email on the fallback profile when the lookup found no match. -/
def emailWriteContext (cfg : Config) (email : String) (d : UTCDate) : Json :=
  .obj [("sessionId", .str (generateSessionId cfg.profileId d)),
        ("profileId", .str cfg.profileId),
        ("source", sourceObj cfg),
        ("events", .arr [.obj [
          ("eventType", .str "updateProperties"),
          ("scope", .str "claude-desktop"),
          ("source", sourceObj cfg),
          ("target", .obj [("itemId", .str cfg.profileId),
                           ("itemType", .str "profile"),
                           ("scope", .str "claude-desktop")]),
          ("properties", .obj [("update", .obj [
            ("properties.email", .str email)])])]])]

/-- `getEffectiveProfileId` from the server module. With an email configured
it runs the lookup; a truthy (non-empty) returned id is used directly, else
the configured fallback id is returned after the best-effort email write,
whose outcome (`writeResp`) is caught, logged and swallowed. With no email
configured the fallback id is returned with no remote call. -/
def getEffectiveProfileId (cfg : Config) (d : UTCDate)
    (lookupResp writeResp : HttpResult) : String × List RemoteCall :=
  match cfg.email with
  | some email =>
    let f := findProfileByEmail email lookupResp
    match f.1 with
    | some s =>
      if s.isEmpty then
        (cfg.profileId, f.2 ++ [.contextPost (emailWriteContext cfg email d)])
      else (s, f.2)
    | none =>
      (cfg.profileId, f.2 ++ [.contextPost (emailWriteContext cfg email d)])
  | none => (cfg.profileId, [])

/-! ## Scope ensurer (`ensureScopeExists`) -/

/-- The absence test on the existence check's response:
`response.status === 204 || !response.data || Object.keys(response.data).length === 0`. -/
def scopeAbsent (status : Nat) (data : Json) : Bool :=
  status == 204 || falsy data || (jsKeys data).length == 0

/-- The scope record `ensureScopeExists` creates for a missing scope. -/
def autoScopeData (scope : String) : Json :=
  .obj [("itemId", .str scope), ("itemType", .str "scope"),
        ("metadata", .obj [
          ("id", .str scope),
          ("name", .str ("Claude Desktop Scope - " ++ scope)),
          ("description", .str "Automatically created scope for Claude Desktop MCP Server"),
          ("scope", .str scope)])]

/-- `ensureScopeExists` from the server module: reads the scope by id,
creates it when the absence test holds, and converts any transport failure
(of the read or of the create) into an internal-error protocol fault. -/
def ensureScopeExists (scope : String) (getResp postResp : HttpResult) :
    Except McpError Unit × List RemoteCall :=
  match getResp with
  | .fail => (.error ⟨.internalError⟩, [.scopeGet scope])
  | .ok status data =>
    if scopeAbsent status data then
      match postResp with
      | .fail => (.error ⟨.internalError⟩,
                  [.scopeGet scope, .scopePost (autoScopeData scope)])
      | .ok _ _ => (.ok (), [.scopeGet scope, .scopePost (autoScopeData scope)])
    else (.ok (), [.scopeGet scope])

/-! ## Tool dispatcher (the `CallToolRequestSchema` handler) -/

/-- The scope record the `create_scope` branch builds from its arguments;
the optional `name` and `description` fields are `undefined` when absent and
are then dropped on serialization. -/
def createScopeData (args : Json) : Json :=
  let scope := (getField args "scope").getD .null
  .obj [("itemId", scope), ("itemType", .str "scope"),
        ("metadata", objDropU [
          ("id", some scope),
          ("name", getField args "name"),
          ("description", getField args "description"),
          ("scope", some scope)])]

/-- The Context Request the `update_my_profile` branch posts: a single
`updateProperties` event whose update map prefixes every argument property
key with `properties.`. -/
def updateContextBody (cfg : Config) (d : UTCDate) (profileId : String)
    (props : Json) : Json :=
  .obj [("sessionId", .str (generateSessionId profileId d)),
        ("profileId", .str profileId),
        ("source", sourceObj cfg),
        ("events", .arr [.obj [
          ("eventType", .str "updateProperties"),
          ("scope", .str "claude-desktop"),
          ("source", sourceObj cfg),
          ("target", .obj [("itemId", .str profileId),
                           ("itemType", .str "profile"),
                           ("scope", .str "claude-desktop")]),
          ("properties", .obj [("update", .obj
            ((jsEntries props).map (fun kv => ("properties." ++ kv.1, kv.2))))])]])]

/-- The resolution-path tag written into both my-profile success payloads:
the source is `UNOMI_EMAIL ? "email_lookup" : "environment"`. -/
def resolutionTag (cfg : Config) : String :=
  if cfg.email.isSome then "email_lookup" else "environment"

/-- The `update_my_profile` success payload. -/
def updateSuccessPayload (cfg : Config) (d : UTCDate) (profileId : String)
    (props : Json) : Json :=
  .obj [("message", .str "Profile properties updated successfully"),
        ("updatedProperties", props),
        ("profileId", .str profileId),
        ("sessionId", .str (generateSessionId profileId d)),
        ("source", .str (resolutionTag cfg))]

/-- The Context Request the `get_my_profile` branch posts; the
`requireSegments`/`requireScores` flags pass through from the arguments and
are dropped on serialization when absent. -/
def getMyProfileContextBody (cfg : Config) (d : UTCDate) (profileId : String)
    (args : Json) : Json :=
  objDropU [
    ("sessionId", some (.str (generateSessionId profileId d))),
    ("profileId", some (.str profileId)),
    ("source", some (sourceObj cfg)),
    ("requiredProfileProperties", some (.arr [.str "*"])),
    ("requiredSessionProperties", some (.arr [.str "*"])),
    ("requireSegments", getField args "requireSegments"),
    ("requireScores", getField args "requireScores")]

/-- The `get_my_profile` success payload, built from the remote response
body; fields absent from the response are dropped on serialization. -/
def getMyProfilePayload (cfg : Config) (d : UTCDate) (profileId : String)
    (data : Json) : Json :=
  objDropU [
    ("profile", getField data "profileProperties"),
    ("session", getField data "sessionProperties"),
    ("segments", getField data "profileSegments"),
    ("scores", getField data "profileScores"),
    ("sessionId", some (.str (generateSessionId profileId d))),
    ("profileId", some (.str profileId)),
    ("source", some (.str (resolutionTag cfg)))]

/-- The search body the `search_profiles` branch posts, after destructuring
`query` and defaulting `limit` to 10 and `offset` to 0. -/
def searchProfilesBody (query limit offset : Json) : Json :=
  .obj [("offset", offset), ("limit", limit),
        ("condition", .obj [
          ("type", .str "booleanCondition"),
          ("parameterValues", .obj [
            ("operator", .str "or"),
            ("subConditions", .arr [
              .obj [("type", .str "profilePropertyCondition"),
                    ("parameterValues", .obj [
                      ("propertyName", .str "properties.firstName"),
                      ("comparisonOperator", .str "contains"),
                      ("propertyValue", query)])],
              .obj [("type", .str "profilePropertyCondition"),
                    ("parameterValues", .obj [
                      ("propertyName", .str "properties.lastName"),
                      ("comparisonOperator", .str "contains"),
                      ("propertyValue", query)])],
              .obj [("type", .str "profilePropertyCondition"),
                    ("parameterValues", .obj [
                      ("propertyName", .str "properties.email"),
                      ("comparisonOperator", .str "contains"),
                      ("propertyValue", query)])]])])])]

/-- The `CallToolRequestSchema` handler of the server module: dispatch on the
tool name, mirroring the source's `switch` branch for branch. Protocol
faults (`McpError`) are the `Except.error` outcome; caught transport
failures of the primary action become `ToolResult.errorContent`. The second
component is the trace of outbound requests issued, in order. -/
def callTool (cfg : Config) (d : UTCDate) (env : Env) (name : String)
    (args : Json) : Except McpError ToolResult × List RemoteCall :=
  if name == "create_scope" then
    if isValidCreateScopeArgs args then
      let body := createScopeData args
      match env.primaryResp with
      | .ok _ _ =>
        (.ok (.success (.obj [("message", .str "Scope created successfully"),
                              ("scope", body)])),
         [.scopePost body])
      | .fail => (.ok .errorContent, [.scopePost body])
    else (.error ⟨.invalidParams⟩, [])
  else if name == "update_my_profile" then
    match ensureScopeExists "claude-desktop" env.scopeGetResp env.scopePostResp with
    | (.error e, tr) => (.error e, tr)
    | (.ok _, tr) =>
      if isValidUpdateMyProfileArgs args then
        let r := getEffectiveProfileId cfg d env.lookupResp env.emailWriteResp
        let props := (getField args "properties").getD .null
        let body := updateContextBody cfg d r.1 props
        match env.primaryResp with
        | .ok _ _ =>
          (.ok (.success (updateSuccessPayload cfg d r.1 props)),
           tr ++ r.2 ++ [.contextPost body])
        | .fail => (.ok .errorContent, tr ++ r.2 ++ [.contextPost body])
      else (.error ⟨.invalidParams⟩, tr)
  else if name == "get_my_profile" then
    match ensureScopeExists "claude-desktop" env.scopeGetResp env.scopePostResp with
    | (.error e, tr) => (.error e, tr)
    | (.ok _, tr) =>
      if isValidGetMyProfileArgs args then
        let r := getEffectiveProfileId cfg d env.lookupResp env.emailWriteResp
        let body := getMyProfileContextBody cfg d r.1 args
        match env.primaryResp with
        | .ok _ data =>
          (.ok (.success (getMyProfilePayload cfg d r.1 data)),
           tr ++ r.2 ++ [.contextPost body])
        | .fail => (.ok .errorContent, tr ++ r.2 ++ [.contextPost body])
      else (.error ⟨.invalidParams⟩, tr)
  else if name == "get_profile" then
    if isValidGetProfileArgs args then
      let pid := (getField args "profileId").getD .null
      match env.primaryResp with
      | .ok _ data => (.ok (.success data), [.profileGet pid])
      | .fail => (.ok .errorContent, [.profileGet pid])
    else (.error ⟨.invalidParams⟩, [])
  else if name == "search_profiles" then
    if isValidSearchProfilesArgs args then
      let body := searchProfilesBody ((getField args "query").getD .null)
                    ((getField args "limit").getD (.num 10))
                    ((getField args "offset").getD (.num 0))
      match env.primaryResp with
      | .ok _ data => (.ok (.success data), [.searchPost body])
      | .fail => (.ok .errorContent, [.searchPost body])
    else (.error ⟨.invalidParams⟩, [])
  else (.error ⟨.methodNotFound⟩, [])

/-! ## Helper lemmas -/

theorem digitChar_inj : ∀ a, a < 10 → ∀ b, b < 10 → digitChar a = digitChar b → a = b := by
  decide

theorem string_append_left_cancel (a b c : String) (h : a ++ b = a ++ c) : b = c := by
  apply String.ext
  apply List.append_cancel_left
  show a.data ++ b.data = a.data ++ c.data
  have hd := congrArg String.data h
  simpa [String.data_append] using hd

theorem datePart_inj (d1 d2 : UTCDate) (h1 : d1.Valid) (h2 : d2.Valid)
    (h : datePart d1 = datePart d2) : d1 = d2 := by
  obtain ⟨m1a, m1b, dy1a, dy1b, y1⟩ := h1
  obtain ⟨m2a, m2b, dy2a, dy2b, y2⟩ := h2
  have hl : [digitChar (d1.year / 1000 % 10), digitChar (d1.year / 100 % 10),
             digitChar (d1.year / 10 % 10), digitChar (d1.year % 10),
             digitChar (d1.month / 10 % 10), digitChar (d1.month % 10),
             digitChar (d1.day / 10 % 10), digitChar (d1.day % 10)]
          = [digitChar (d2.year / 1000 % 10), digitChar (d2.year / 100 % 10),
             digitChar (d2.year / 10 % 10), digitChar (d2.year % 10),
             digitChar (d2.month / 10 % 10), digitChar (d2.month % 10),
             digitChar (d2.day / 10 % 10), digitChar (d2.day % 10)] :=
    congrArg String.data h
  simp only [List.cons.injEq, and_true] at hl
  obtain ⟨e1, e2, e3, e4, e5, e6, e7, e8⟩ := hl
  have ten : (0:Nat) < 10 := by decide
  have q1 := digitChar_inj _ (Nat.mod_lt _ ten) _ (Nat.mod_lt _ ten) e1
  have q2 := digitChar_inj _ (Nat.mod_lt _ ten) _ (Nat.mod_lt _ ten) e2
  have q3 := digitChar_inj _ (Nat.mod_lt _ ten) _ (Nat.mod_lt _ ten) e3
  have q4 := digitChar_inj _ (Nat.mod_lt _ ten) _ (Nat.mod_lt _ ten) e4
  have q5 := digitChar_inj _ (Nat.mod_lt _ ten) _ (Nat.mod_lt _ ten) e5
  have q6 := digitChar_inj _ (Nat.mod_lt _ ten) _ (Nat.mod_lt _ ten) e6
  have q7 := digitChar_inj _ (Nat.mod_lt _ ten) _ (Nat.mod_lt _ ten) e7
  have q8 := digitChar_inj _ (Nat.mod_lt _ ten) _ (Nat.mod_lt _ ten) e8
  have hy : d1.year = d2.year := by omega
  have hm : d1.month = d2.month := by omega
  have hd : d1.day = d2.day := by omega
  cases d1; cases d2
  simp_all

/-! ## Claim C4 -/

/-- C4: `generateSessionId(profileId)` returns exactly
`{profileId}-{YYYYMMDD}` for the current UTC calendar date; two calls with
the same profile id on the same UTC day return identical strings, and calls
on two different UTC days return different strings. -/
theorem generateSessionId_format_and_daily (p : String) (d1 d2 : UTCDate)
    (h1 : d1.Valid) (h2 : d2.Valid) :
    generateSessionId p d1 = p ++ "-" ++ datePart d1
    ∧ (d1 = d2 → generateSessionId p d1 = generateSessionId p d2)
    ∧ (d1 ≠ d2 → generateSessionId p d1 ≠ generateSessionId p d2) := by
  refine ⟨rfl, fun hEq => by rw [hEq], fun hne hcontra => hne ?_⟩
  apply datePart_inj d1 d2 h1 h2
  exact string_append_left_cancel (p ++ "-") _ _ hcontra

/-- Witness for C4 at `"user123"` on 2026-10-12 versus 2026-10-13. -/
theorem generateSessionId_format_and_daily_witness :
    (UTCDate.mk 2026 10 12).Valid ∧ (UTCDate.mk 2026 10 13).Valid
    ∧ (generateSessionId "user123" ⟨2026, 10, 12⟩
         = "user123" ++ "-" ++ datePart ⟨2026, 10, 12⟩
       ∧ ((⟨2026, 10, 12⟩ : UTCDate) = ⟨2026, 10, 13⟩ →
          generateSessionId "user123" ⟨2026, 10, 12⟩
            = generateSessionId "user123" ⟨2026, 10, 13⟩)
       ∧ ((⟨2026, 10, 12⟩ : UTCDate) ≠ ⟨2026, 10, 13⟩ →
          generateSessionId "user123" ⟨2026, 10, 12⟩
            ≠ generateSessionId "user123" ⟨2026, 10, 13⟩)) :=
  ⟨by decide, by decide,
   generateSessionId_format_and_daily "user123" ⟨2026, 10, 12⟩ ⟨2026, 10, 13⟩
     (by decide) (by decide)⟩

/-- Is a traced request the scope-creation POST? -/
def isScopePost : RemoteCall → Bool
  | .scopePost _ => true
  | _ => false

/-- Is a traced request a Context Request write/read POST? -/
def isContextPost : RemoteCall → Bool
  | .contextPost _ => true
  | _ => false

theorem findProfileByEmail_trace (email : String) (r : HttpResult) :
    (findProfileByEmail email r).2 = [.searchPost (emailSearchBody email)] := by
  cases r with
  | fail => rfl
  | ok st data =>
    unfold findProfileByEmail
    dsimp only
    split
    · split <;> rfl
    · rfl

/-! ## Claim C7 -/

/-- C7: `ensureScopeExists` issues exactly one remote create call when the
existence check returns a 204 status or an empty/key-less body, and zero
create calls otherwise; a transport-level failure of the existence check is
converted into an internal-error fault surfaced to the caller. -/
theorem ensureScopeExists_create_count_and_failure (scope : String)
    (g p : HttpResult) :
    ((ensureScopeExists scope g p).2.filter isScopePost).length
      = (match g with
         | .ok st data => if scopeAbsent st data then 1 else 0
         | .fail => 0)
    ∧ (match g with
       | .fail => (ensureScopeExists scope g p).1 = .error ⟨.internalError⟩
       | .ok _ _ => True) := by
  cases g with
  | fail => simp [ensureScopeExists, isScopePost, List.filter]
  | ok st data =>
    refine ⟨?_, trivial⟩
    unfold ensureScopeExists
    dsimp only
    split
    · cases p <;> simp_all [isScopePost, List.filter]
    · simp_all [isScopePost, List.filter]

/-! ## Claim C5 -/

/-- C5: with an email configured and the lookup returning no match,
`getEffectiveProfileId` returns the configured fallback id and attempts
exactly one best-effort write setting that profile's email property; the
write's outcome is swallowed and does not affect the returned value. -/
theorem getEffectiveProfileId_noMatch (pid src email : String) (d : UTCDate)
    (lr w w2 : HttpResult)
    (h : (findProfileByEmail email lr).1 = none) :
    getEffectiveProfileId ⟨pid, src, some email⟩ d lr w
      = (pid, [.searchPost (emailSearchBody email),
               .contextPost (emailWriteContext ⟨pid, src, some email⟩ email d)])
    ∧ getEffectiveProfileId ⟨pid, src, some email⟩ d lr w
      = getEffectiveProfileId ⟨pid, src, some email⟩ d lr w2
    ∧ getField ((getField ((getField ((getField
          (emailWriteContext ⟨pid, src, some email⟩ email d)
          "events").getD .null) "0").getD .null) "properties").getD .null)
        "update"
      = some (.obj [("properties.email", .str email)]) := by
  refine ⟨?_, rfl, ?_⟩
  · unfold getEffectiveProfileId
    dsimp only
    rw [h, findProfileByEmail_trace]
    rfl
  · rfl

/-- Witness for C5: a well-formed empty search result. -/
theorem getEffectiveProfileId_noMatch_witness :
    (findProfileByEmail "me@x.io" (.ok 200 (.obj [("list", .arr [])]))).1 = none
    ∧ (getEffectiveProfileId ⟨"fb", "src", some "me@x.io"⟩ ⟨2026, 10, 12⟩
         (.ok 200 (.obj [("list", .arr [])])) .fail
         = ("fb", [.searchPost (emailSearchBody "me@x.io"),
                   .contextPost (emailWriteContext ⟨"fb", "src", some "me@x.io"⟩
                                   "me@x.io" ⟨2026, 10, 12⟩)])
       ∧ getEffectiveProfileId ⟨"fb", "src", some "me@x.io"⟩ ⟨2026, 10, 12⟩
           (.ok 200 (.obj [("list", .arr [])])) .fail
         = getEffectiveProfileId ⟨"fb", "src", some "me@x.io"⟩ ⟨2026, 10, 12⟩
             (.ok 200 (.obj [("list", .arr [])])) (.ok 200 .null)
       ∧ getField ((getField ((getField ((getField
             (emailWriteContext ⟨"fb", "src", some "me@x.io"⟩ "me@x.io" ⟨2026, 10, 12⟩)
             "events").getD .null) "0").getD .null) "properties").getD .null)
           "update"
         = some (.obj [("properties.email", .str "me@x.io")])) :=
  ⟨rfl, getEffectiveProfileId_noMatch "fb" "src" "me@x.io" ⟨2026, 10, 12⟩
     (.ok 200 (.obj [("list", .arr [])])) .fail (.ok 200 .null) rfl⟩

/-! ## Claim C6 -/

/-- C6: with an email configured and the lookup returning a match with
(non-empty) profile id `x`, `getEffectiveProfileId` returns `x` and performs
no remote write: its trace is the single search request. -/
theorem getEffectiveProfileId_match (pid src email x : String) (d : UTCDate)
    (lr w : HttpResult)
    (h : (findProfileByEmail email lr).1 = some x) (hx : x.isEmpty = false) :
    getEffectiveProfileId ⟨pid, src, some email⟩ d lr w
      = (x, [.searchPost (emailSearchBody email)])
    ∧ ((getEffectiveProfileId ⟨pid, src, some email⟩ d lr w).2.filter
         isContextPost).length = 0 := by
  have hmain : getEffectiveProfileId ⟨pid, src, some email⟩ d lr w
      = (x, [.searchPost (emailSearchBody email)]) := by
    unfold getEffectiveProfileId
    dsimp only
    rw [h, findProfileByEmail_trace]
    simp [hx]
  refine ⟨hmain, ?_⟩
  rw [hmain]
  rfl

/-- Witness for C6: a search result holding one profile with item id `X`. -/
theorem getEffectiveProfileId_match_witness :
    (findProfileByEmail "me@x.io"
       (.ok 200 (.obj [("list", .arr [.obj [("itemId", .str "X")]])]))).1 = some "X"
    ∧ "X".isEmpty = false
    ∧ (getEffectiveProfileId ⟨"fb", "src", some "me@x.io"⟩ ⟨2026, 10, 12⟩
         (.ok 200 (.obj [("list", .arr [.obj [("itemId", .str "X")]])])) .fail
         = ("X", [.searchPost (emailSearchBody "me@x.io")])
       ∧ ((getEffectiveProfileId ⟨"fb", "src", some "me@x.io"⟩ ⟨2026, 10, 12⟩
             (.ok 200 (.obj [("list", .arr [.obj [("itemId", .str "X")]])]))
             .fail).2.filter isContextPost).length = 0) :=
  ⟨rfl, rfl, getEffectiveProfileId_match "fb" "src" "me@x.io" "X" ⟨2026, 10, 12⟩
     (.ok 200 (.obj [("list", .arr [.obj [("itemId", .str "X")]])])) .fail rfl rfl⟩

/-! ## Claim C10 -/

/-- C10: a transport-level failure of the lookup makes `findProfileByEmail`
return `null`, so `getEffectiveProfileId` treats a failed lookup exactly
like an empty result: it returns the configured fallback id and still
attempts the best-effort email write; the failure is never surfaced. -/
theorem findProfileByEmail_transport_failure (pid src email : String)
    (d : UTCDate) (w resp : HttpResult)
    (h : (findProfileByEmail email resp).1 = none) :
    (findProfileByEmail email .fail).1 = none
    ∧ getEffectiveProfileId ⟨pid, src, some email⟩ d .fail w
      = getEffectiveProfileId ⟨pid, src, some email⟩ d resp w
    ∧ (getEffectiveProfileId ⟨pid, src, some email⟩ d .fail w).1 = pid
    ∧ ((getEffectiveProfileId ⟨pid, src, some email⟩ d .fail w).2.filter
         isContextPost).length = 1 := by
  have hfail : getEffectiveProfileId ⟨pid, src, some email⟩ d .fail w
      = (pid, [.searchPost (emailSearchBody email),
               .contextPost (emailWriteContext ⟨pid, src, some email⟩ email d)]) :=
    (getEffectiveProfileId_noMatch pid src email d .fail w w rfl).1
  have hresp : getEffectiveProfileId ⟨pid, src, some email⟩ d resp w
      = (pid, [.searchPost (emailSearchBody email),
               .contextPost (emailWriteContext ⟨pid, src, some email⟩ email d)]) :=
    (getEffectiveProfileId_noMatch pid src email d resp w w h).1
  refine ⟨rfl, hfail.trans hresp.symm, ?_, ?_⟩
  · rw [hfail]
  · rw [hfail]
    rfl

/-- Witness for C10: the empty lookup result compared with the failed one. -/
theorem findProfileByEmail_transport_failure_witness :
    (findProfileByEmail "me@x.io" (.ok 200 (.obj [("list", .arr [])]))).1 = none
    ∧ ((findProfileByEmail "me@x.io" .fail).1 = none
       ∧ getEffectiveProfileId ⟨"fb", "src", some "me@x.io"⟩ ⟨2026, 10, 12⟩ .fail
           (.ok 200 .null)
         = getEffectiveProfileId ⟨"fb", "src", some "me@x.io"⟩ ⟨2026, 10, 12⟩
             (.ok 200 (.obj [("list", .arr [])])) (.ok 200 .null)
       ∧ (getEffectiveProfileId ⟨"fb", "src", some "me@x.io"⟩ ⟨2026, 10, 12⟩ .fail
            (.ok 200 .null)).1 = "fb"
       ∧ ((getEffectiveProfileId ⟨"fb", "src", some "me@x.io"⟩ ⟨2026, 10, 12⟩ .fail
             (.ok 200 .null)).2.filter isContextPost).length = 1) :=
  ⟨rfl, findProfileByEmail_transport_failure "fb" "src" "me@x.io" ⟨2026, 10, 12⟩
     (.ok 200 .null) (.ok 200 (.obj [("list", .arr [])])) rfl⟩

/-! ## Claim C3 -/

theorem hasKey_eq_isSome (c : Json) (k : String) :
    hasKey c k = (getField c k).isSome := by
  cases c with
  | null => rfl
  | bool b => rfl
  | num n => rfl
  | str s => rfl
  | obj kvs =>
    induction kvs with
    | nil => rfl
    | cons hd tl ih =>
      simp only [hasKey, getField, List.any_cons, List.find?_cons] at ih ⊢
      cases hhd : hd.1 == k <;> simp_all
  | arr xs =>
    simp only [hasKey, getField]
    cases hl : k == "length" with
    | true => simp
    | false =>
      cases hf : (List.range xs.length).find? (fun i => toString i == k) with
      | none =>
        rw [List.find?_eq_none] at hf
        have hany : ((List.range xs.length).any fun i => toString i == k) = false := by
          rw [List.any_eq_false]
          exact fun i hi => hf i hi
        simp [hany]
      | some i =>
        have hp := List.find?_some hf
        have hmem := List.mem_of_find?_eq_some hf
        have hlt : i < xs.length := List.mem_range.mp hmem
        have hany : ((List.range xs.length).any fun i => toString i == k) = true := by
          rw [List.any_eq_true]
          exact ⟨i, hmem, hp⟩
        simp [hany, List.getElem?_eq_getElem hlt]

/-- Spec §4.1 predicate, amended: the "non-null structured object" test is
the implementation's JavaScript one, `typeof x === "object" && x !== null`,
which also accepts arrays. -/
def specObjectLike (c : Json) : Bool := typeof c == "object" && !(isNullJ c)

/-- Modelled from the spec (§4.1): a required field is present with the
correct primitive type. -/
def specRequiredField (c : Json) (k t : String) : Bool :=
  hasKey c k && typeofGet c k == t

/-- Modelled from the spec (§4.1): an optional field, if present, matches
its declared type. -/
def specOptionalField (c : Json) (k t : String) : Bool :=
  !(hasKey c k) || typeofGet c k == t

/-- Modelled from the spec (§4.1 table): `get_profile` requires
`profileId: string`. -/
def specValidGetProfileArgs (c : Json) : Bool :=
  specObjectLike c && specRequiredField c "profileId" "string"

/-- Modelled from the spec (§4.1 table): `search_profiles` requires
`query: string`, with optional `limit: number` and `offset: number`. -/
def specValidSearchProfilesArgs (c : Json) : Bool :=
  specObjectLike c && specRequiredField c "query" "string" &&
  specOptionalField c "limit" "number" && specOptionalField c "offset" "number"

/-- Modelled from the spec (§4.1 table): `get_my_profile` has only the
optional `requireSegments: bool` and `requireScores: bool`. -/
def specValidGetMyProfileArgs (c : Json) : Bool :=
  specObjectLike c && specOptionalField c "requireSegments" "boolean" &&
  specOptionalField c "requireScores" "boolean"

/-- Modelled from the spec (§4.1 table, amended as `specObjectLike`):
`update_my_profile` requires `properties`, an object-like map whose values
are strings, numbers, booleans or null. -/
def specValidUpdateMyProfileArgs (c : Json) : Bool :=
  specObjectLike c &&
  (match getField c "properties" with
   | some v => specObjectLike v && (jsEntries v).all (fun p =>
       isNullJ p.2 || typeof p.2 == "string" || typeof p.2 == "number" ||
       typeof p.2 == "boolean")
   | none => false)

/-- Modelled from the spec (§4.1 table): `create_scope` requires
`scope: string`, with optional `name: string` and `description: string`. -/
def specValidCreateScopeArgs (c : Json) : Bool :=
  specObjectLike c && specRequiredField c "scope" "string" &&
  specOptionalField c "name" "string" && specOptionalField c "description" "string"

theorem optionalField_eq (c : Json) (k t : String) :
    ((getField c k).isNone || typeofGet c k == t) = specOptionalField c k t := by
  unfold specOptionalField
  rw [hasKey_eq_isSome]
  cases hgf : getField c k <;> simp [typeofGet, hgf]

/-- C3 counterexample: the validators do not reject every wrong container
type. `typeof [] === "object"`, so `isValidGetMyProfileArgs` accepts an
array candidate and `isValidUpdateMyProfileArgs` accepts an array as the
required `properties` map, where the claim demands `false`. -/
theorem validators_accept_arrays_counterexample :
    isValidGetMyProfileArgs (.arr []) = true
    ∧ isValidUpdateMyProfileArgs (.obj [("properties", .arr [.num 1])]) = true :=
  ⟨rfl, rfl⟩

/-- C3 amended: each validator returns true iff the candidate passes the
§4.1 table's checks with "non-null structured object" read as the
implementation's JavaScript test `typeof x === "object" && x !== null`,
which also accepts arrays; the validators are total functions and never
raise. -/
theorem validators_match_spec_table (c : Json) :
    isValidGetProfileArgs c = specValidGetProfileArgs c
    ∧ isValidSearchProfilesArgs c = specValidSearchProfilesArgs c
    ∧ isValidGetMyProfileArgs c = specValidGetMyProfileArgs c
    ∧ isValidUpdateMyProfileArgs c = specValidUpdateMyProfileArgs c
    ∧ isValidCreateScopeArgs c = specValidCreateScopeArgs c := by
  refine ⟨?_, ?_, ?_, ?_, ?_⟩
  · unfold isValidGetProfileArgs specValidGetProfileArgs specObjectLike specRequiredField
    simp [Bool.and_assoc]
  · unfold isValidSearchProfilesArgs specValidSearchProfilesArgs specObjectLike specRequiredField
    rw [optionalField_eq c "limit" "number", optionalField_eq c "offset" "number"]
    simp [Bool.and_assoc]
  · unfold isValidGetMyProfileArgs specValidGetMyProfileArgs specObjectLike
    rw [optionalField_eq c "requireSegments" "boolean",
        optionalField_eq c "requireScores" "boolean"]
    try simp [Bool.and_assoc]
  · unfold isValidUpdateMyProfileArgs specValidUpdateMyProfileArgs specObjectLike
    rw [hasKey_eq_isSome]
    cases hgf : getField c "properties" with
    | none => simp [typeofGet, hgf]
    | some v =>
      simp only [typeofGet, hgf, Option.isSome_some, Option.getD_some, Bool.true_and]
      cases v <;> simp [typeof, isNullJ, Bool.and_assoc]
  · unfold isValidCreateScopeArgs specValidCreateScopeArgs specObjectLike specRequiredField
    rw [optionalField_eq c "name" "string", optionalField_eq c "description" "string"]
    simp [Bool.and_assoc]

/-! ## Claim C8 -/

/-- C8: every valid `search_profiles` call posts exactly one search request
whose body is a boolean `or` condition over exactly three `contains`
profile-property sub-conditions on `properties.firstName`,
`properties.lastName` and `properties.email`, each comparing against the
query string, with `limit` defaulting to 10 and `offset` to 0 when omitted. -/
theorem searchProfiles_request_body (cfg : Config) (d : UTCDate) (env : Env)
    (args : Json) (hv : isValidSearchProfilesArgs args = true) :
    (callTool cfg d env "search_profiles" args).2 =
      [RemoteCall.searchPost (Json.obj [
        ("offset", (getField args "offset").getD (.num 0)),
        ("limit", (getField args "limit").getD (.num 10)),
        ("condition", Json.obj [
          ("type", .str "booleanCondition"),
          ("parameterValues", Json.obj [
            ("operator", .str "or"),
            ("subConditions", Json.arr [
              .obj [("type", .str "profilePropertyCondition"),
                    ("parameterValues", .obj [
                      ("propertyName", .str "properties.firstName"),
                      ("comparisonOperator", .str "contains"),
                      ("propertyValue", (getField args "query").getD .null)])],
              .obj [("type", .str "profilePropertyCondition"),
                    ("parameterValues", .obj [
                      ("propertyName", .str "properties.lastName"),
                      ("comparisonOperator", .str "contains"),
                      ("propertyValue", (getField args "query").getD .null)])],
              .obj [("type", .str "profilePropertyCondition"),
                    ("parameterValues", .obj [
                      ("propertyName", .str "properties.email"),
                      ("comparisonOperator", .str "contains"),
                      ("propertyValue", (getField args "query").getD .null)])]])])])])] := by
  unfold callTool
  rw [if_neg (by decide), if_neg (by decide), if_neg (by decide),
      if_neg (by decide), if_pos (by decide), if_pos hv]
  cases env.primaryResp <;> rfl

/-- Witness for C8: query `"john"`, limit and offset omitted. -/
theorem searchProfiles_request_body_witness :
    isValidSearchProfilesArgs (.obj [("query", .str "john")]) = true
    ∧ (callTool ⟨"fb", "src", none⟩ ⟨2026, 10, 12⟩
         ⟨.ok 200 .null, .ok 200 .null, .ok 200 .null, .ok 200 .null, .ok 200 .null⟩
         "search_profiles" (.obj [("query", .str "john")])).2 =
      [RemoteCall.searchPost (Json.obj [
        ("offset", (getField (.obj [("query", .str "john")]) "offset").getD (.num 0)),
        ("limit", (getField (.obj [("query", .str "john")]) "limit").getD (.num 10)),
        ("condition", Json.obj [
          ("type", .str "booleanCondition"),
          ("parameterValues", Json.obj [
            ("operator", .str "or"),
            ("subConditions", Json.arr [
              .obj [("type", .str "profilePropertyCondition"),
                    ("parameterValues", .obj [
                      ("propertyName", .str "properties.firstName"),
                      ("comparisonOperator", .str "contains"),
                      ("propertyValue", (getField (.obj [("query", .str "john")]) "query").getD .null)])],
              .obj [("type", .str "profilePropertyCondition"),
                    ("parameterValues", .obj [
                      ("propertyName", .str "properties.lastName"),
                      ("comparisonOperator", .str "contains"),
                      ("propertyValue", (getField (.obj [("query", .str "john")]) "query").getD .null)])],
              .obj [("type", .str "profilePropertyCondition"),
                    ("parameterValues", .obj [
                      ("propertyName", .str "properties.email"),
                      ("comparisonOperator", .str "contains"),
                      ("propertyValue", (getField (.obj [("query", .str "john")]) "query").getD .null)])]])])])])] :=
  ⟨rfl, searchProfiles_request_body ⟨"fb", "src", none⟩ ⟨2026, 10, 12⟩
     ⟨.ok 200 .null, .ok 200 .null, .ok 200 .null, .ok 200 .null, .ok 200 .null⟩
     (.obj [("query", .str "john")]) rfl⟩

/-! ## Claim C9 -/

/-- C9: every valid `update_my_profile` call that passes the scope check
posts, as its primary action, one Context Request holding a single
`updateProperties` event whose update map is exactly the input properties
map with every key `k` renamed to `properties.k` and every value unchanged. -/
theorem updateMyProfile_request_body (cfg : Config) (d : UTCDate) (env : Env)
    (args props : Json) (tr rtr : List RemoteCall) (pid : String)
    (hv : isValidUpdateMyProfileArgs args = true)
    (hp : getField args "properties" = some props)
    (hE : ensureScopeExists "claude-desktop" env.scopeGetResp env.scopePostResp
          = (.ok (), tr))
    (hR : getEffectiveProfileId cfg d env.lookupResp env.emailWriteResp
          = (pid, rtr)) :
    (callTool cfg d env "update_my_profile" args).2 =
      tr ++ rtr ++ [RemoteCall.contextPost (Json.obj [
        ("sessionId", .str (generateSessionId pid d)),
        ("profileId", .str pid),
        ("source", .obj [("itemId", .str cfg.sourceId), ("itemType", .str "claude"),
                         ("scope", .str "claude-desktop")]),
        ("events", .arr [.obj [
          ("eventType", .str "updateProperties"),
          ("scope", .str "claude-desktop"),
          ("source", .obj [("itemId", .str cfg.sourceId), ("itemType", .str "claude"),
                           ("scope", .str "claude-desktop")]),
          ("target", .obj [("itemId", .str pid), ("itemType", .str "profile"),
                           ("scope", .str "claude-desktop")]),
          ("properties", .obj [("update", .obj
            ((jsEntries props).map (fun kv => ("properties." ++ kv.1, kv.2))))])]])])] := by
  unfold callTool
  rw [if_neg (by decide), if_pos (by decide), hE]
  dsimp only
  rw [if_pos hv, hR, hp]
  cases env.primaryResp <;> rfl

/-- Witness for C9: input property `age = 30` becomes update-map key
`properties.age` with value 30 unchanged. -/
theorem updateMyProfile_request_body_witness :
    isValidUpdateMyProfileArgs (.obj [("properties", .obj [("age", .num 30)])]) = true
    ∧ getField (.obj [("properties", .obj [("age", .num 30)])]) "properties"
        = some (.obj [("age", .num 30)])
    ∧ ensureScopeExists "claude-desktop" (.ok 200 (.obj [("itemId", .str "claude-desktop")]))
        (.ok 200 .null) = (.ok (), [.scopeGet "claude-desktop"])
    ∧ getEffectiveProfileId ⟨"fb", "src", none⟩ ⟨2026, 10, 12⟩ (.ok 200 .null)
        (.ok 200 .null) = ("fb", [])
    ∧ (callTool ⟨"fb", "src", none⟩ ⟨2026, 10, 12⟩
         ⟨.ok 200 (.obj [("itemId", .str "claude-desktop")]), .ok 200 .null,
          .ok 200 .null, .ok 200 .null, .ok 200 .null⟩
         "update_my_profile" (.obj [("properties", .obj [("age", .num 30)])])).2 =
      [RemoteCall.scopeGet "claude-desktop"] ++ [] ++ [RemoteCall.contextPost (Json.obj [
        ("sessionId", .str (generateSessionId "fb" ⟨2026, 10, 12⟩)),
        ("profileId", .str "fb"),
        ("source", .obj [("itemId", .str "src"), ("itemType", .str "claude"),
                         ("scope", .str "claude-desktop")]),
        ("events", .arr [.obj [
          ("eventType", .str "updateProperties"),
          ("scope", .str "claude-desktop"),
          ("source", .obj [("itemId", .str "src"), ("itemType", .str "claude"),
                           ("scope", .str "claude-desktop")]),
          ("target", .obj [("itemId", .str "fb"), ("itemType", .str "profile"),
                           ("scope", .str "claude-desktop")]),
          ("properties", .obj [("update", .obj
            ((jsEntries (.obj [("age", .num 30)])).map
              (fun kv => ("properties." ++ kv.1, kv.2))))])]])])] :=
  ⟨rfl, rfl, rfl, rfl,
   updateMyProfile_request_body ⟨"fb", "src", none⟩ ⟨2026, 10, 12⟩
     ⟨.ok 200 (.obj [("itemId", .str "claude-desktop")]), .ok 200 .null,
      .ok 200 .null, .ok 200 .null, .ok 200 .null⟩
     (.obj [("properties", .obj [("age", .num 30)])]) (.obj [("age", .num 30)])
     [.scopeGet "claude-desktop"] [] "fb" rfl rfl rfl rfl⟩

/-! ## Claim C2 -/

/-- C2 counterexample: an `update_my_profile` call with invalid arguments
does raise the invalid-parameters fault, but only after the scope-existence
check has already issued a remote call — the trace is not empty, refuting
"without any remote HTTP call having been issued ... for all five tools". -/
theorem updateMyProfile_remote_call_before_validation_counterexample :
    callTool ⟨"fb", "src", none⟩ ⟨2026, 10, 12⟩
      ⟨.ok 200 (.obj [("itemId", .str "claude-desktop")]), .ok 200 .null,
       .ok 200 .null, .ok 200 .null, .ok 200 .null⟩
      "update_my_profile" (.obj [])
      = (.error ⟨.invalidParams⟩, [.scopeGet "claude-desktop"])
    ∧ isValidUpdateMyProfileArgs (.obj []) = false :=
  ⟨rfl, rfl⟩

/-- C2 amended: validation and unknown-tool faults are raised without any
remote call for `create_scope`, `get_profile`, `search_profiles` and
unknown tool names; for `update_my_profile` and `get_my_profile` the
scope-existence check runs first and always issues at least one remote
call, and only once it succeeds is the invalid-parameters fault raised
(with the scope check's trace as the only remote calls issued). -/
theorem validation_faults_and_remote_calls (cfg : Config) (d : UTCDate)
    (env : Env) (args : Json) (name : String) :
    (isValidCreateScopeArgs args = false →
      callTool cfg d env "create_scope" args = (.error ⟨.invalidParams⟩, []))
    ∧ (isValidGetProfileArgs args = false →
      callTool cfg d env "get_profile" args = (.error ⟨.invalidParams⟩, []))
    ∧ (isValidSearchProfilesArgs args = false →
      callTool cfg d env "search_profiles" args = (.error ⟨.invalidParams⟩, []))
    ∧ (name ≠ "create_scope" → name ≠ "update_my_profile" →
       name ≠ "get_my_profile" → name ≠ "get_profile" →
       name ≠ "search_profiles" →
      callTool cfg d env name args = (.error ⟨.methodNotFound⟩, []))
    ∧ (∀ tr, isValidUpdateMyProfileArgs args = false →
       ensureScopeExists "claude-desktop" env.scopeGetResp env.scopePostResp
         = (.ok (), tr) →
      callTool cfg d env "update_my_profile" args = (.error ⟨.invalidParams⟩, tr))
    ∧ (∀ tr, isValidGetMyProfileArgs args = false →
       ensureScopeExists "claude-desktop" env.scopeGetResp env.scopePostResp
         = (.ok (), tr) →
      callTool cfg d env "get_my_profile" args = (.error ⟨.invalidParams⟩, tr))
    ∧ (∀ scope g p, 1 ≤ (ensureScopeExists scope g p).2.length) := by
  refine ⟨?_, ?_, ?_, ?_, ?_, ?_, ?_⟩
  · intro h
    unfold callTool
    rw [if_pos (by decide), if_neg]
    simp [h]
  · intro h
    unfold callTool
    rw [if_neg (by decide), if_neg (by decide), if_neg (by decide),
        if_pos (by decide), if_neg]
    simp [h]
  · intro h
    unfold callTool
    rw [if_neg (by decide), if_neg (by decide), if_neg (by decide),
        if_neg (by decide), if_pos (by decide), if_neg]
    simp [h]
  · intro h1 h2 h3 h4 h5
    unfold callTool
    rw [if_neg (by simp [beq_eq_false_iff_ne.mpr h1]),
        if_neg (by simp [beq_eq_false_iff_ne.mpr h2]),
        if_neg (by simp [beq_eq_false_iff_ne.mpr h3]),
        if_neg (by simp [beq_eq_false_iff_ne.mpr h4]),
        if_neg (by simp [beq_eq_false_iff_ne.mpr h5])]
  · intro tr h hE
    unfold callTool
    rw [if_neg (by decide), if_pos (by decide), hE]
    dsimp only
    rw [if_neg]
    simp [h]
  · intro tr h hE
    unfold callTool
    rw [if_neg (by decide), if_neg (by decide), if_pos (by decide), hE]
    dsimp only
    rw [if_neg]
    simp [h]
  · intro scope g p
    cases g with
    | fail => simp [ensureScopeExists]
    | ok st data =>
      unfold ensureScopeExists
      dsimp only
      split
      · cases p <;> simp
      · simp

/-- Witness for C2 at arguments invalid for all five validators, the
unknown tool name `"delete_profile"`, and a scope check that succeeds. -/
theorem validation_faults_and_remote_calls_witness :
    isValidCreateScopeArgs (.obj [("requireSegments", .num 1)]) = false
    ∧ isValidGetProfileArgs (.obj [("requireSegments", .num 1)]) = false
    ∧ isValidSearchProfilesArgs (.obj [("requireSegments", .num 1)]) = false
    ∧ isValidUpdateMyProfileArgs (.obj [("requireSegments", .num 1)]) = false
    ∧ isValidGetMyProfileArgs (.obj [("requireSegments", .num 1)]) = false
    ∧ ensureScopeExists "claude-desktop"
        (.ok 200 (.obj [("itemId", .str "claude-desktop")])) (.ok 200 .null)
        = (.ok (), [.scopeGet "claude-desktop"])
    ∧ (callTool ⟨"fb", "src", none⟩ ⟨2026, 10, 12⟩
         ⟨.ok 200 (.obj [("itemId", .str "claude-desktop")]), .ok 200 .null,
          .ok 200 .null, .ok 200 .null, .ok 200 .null⟩
         "create_scope" (.obj [("requireSegments", .num 1)])
         = (.error ⟨.invalidParams⟩, [])
       ∧ callTool ⟨"fb", "src", none⟩ ⟨2026, 10, 12⟩
           ⟨.ok 200 (.obj [("itemId", .str "claude-desktop")]), .ok 200 .null,
            .ok 200 .null, .ok 200 .null, .ok 200 .null⟩
           "get_profile" (.obj [("requireSegments", .num 1)])
           = (.error ⟨.invalidParams⟩, [])
       ∧ callTool ⟨"fb", "src", none⟩ ⟨2026, 10, 12⟩
           ⟨.ok 200 (.obj [("itemId", .str "claude-desktop")]), .ok 200 .null,
            .ok 200 .null, .ok 200 .null, .ok 200 .null⟩
           "search_profiles" (.obj [("requireSegments", .num 1)])
           = (.error ⟨.invalidParams⟩, [])
       ∧ callTool ⟨"fb", "src", none⟩ ⟨2026, 10, 12⟩
           ⟨.ok 200 (.obj [("itemId", .str "claude-desktop")]), .ok 200 .null,
            .ok 200 .null, .ok 200 .null, .ok 200 .null⟩
           "delete_profile" (.obj [("requireSegments", .num 1)])
           = (.error ⟨.methodNotFound⟩, [])
       ∧ callTool ⟨"fb", "src", none⟩ ⟨2026, 10, 12⟩
           ⟨.ok 200 (.obj [("itemId", .str "claude-desktop")]), .ok 200 .null,
            .ok 200 .null, .ok 200 .null, .ok 200 .null⟩
           "update_my_profile" (.obj [("requireSegments", .num 1)])
           = (.error ⟨.invalidParams⟩, [.scopeGet "claude-desktop"])
       ∧ callTool ⟨"fb", "src", none⟩ ⟨2026, 10, 12⟩
           ⟨.ok 200 (.obj [("itemId", .str "claude-desktop")]), .ok 200 .null,
            .ok 200 .null, .ok 200 .null, .ok 200 .null⟩
           "get_my_profile" (.obj [("requireSegments", .num 1)])
           = (.error ⟨.invalidParams⟩, [.scopeGet "claude-desktop"])
       ∧ 1 ≤ (ensureScopeExists "claude-desktop"
               (.ok 200 (.obj [("itemId", .str "claude-desktop")]))
               (.ok 200 .null)).2.length) := by
  have H := validation_faults_and_remote_calls ⟨"fb", "src", none⟩ ⟨2026, 10, 12⟩
    ⟨.ok 200 (.obj [("itemId", .str "claude-desktop")]), .ok 200 .null,
     .ok 200 .null, .ok 200 .null, .ok 200 .null⟩
    (.obj [("requireSegments", .num 1)]) "delete_profile"
  exact ⟨rfl, rfl, rfl, rfl, rfl, rfl,
    H.1 rfl, H.2.1 rfl, H.2.2.1 rfl,
    H.2.2.2.1 (by decide) (by decide) (by decide) (by decide) (by decide),
    H.2.2.2.2.1 [.scopeGet "claude-desktop"] rfl rfl,
    H.2.2.2.2.2.1 [.scopeGet "claude-desktop"] rfl rfl,
    H.2.2.2.2.2.2 "claude-desktop"
      (.ok 200 (.obj [("itemId", .str "claude-desktop")])) (.ok 200 .null)⟩

/-! ## Claim C1 -/

theorem getMyProfilePayload_source_field (cfg : Config) (d : UTCDate)
    (pid : String) (data : Json) :
    getField (getMyProfilePayload cfg d pid data) "source"
      = some (.str (resolutionTag cfg)) := by
  unfold getMyProfilePayload objDropU
  cases getField data "profileProperties" <;>
    cases getField data "sessionProperties" <;>
    cases getField data "profileSegments" <;>
    cases getField data "profileScores" <;>
    simp [getField, List.filterMap, List.find?]

/-- C1 counterexample: with an email configured but the lookup returning no
match, the effective profile id is the statically configured fallback
(the `environment` resolution path), yet the success payload's tag still
reads `email_lookup` — refuting "`environment` when the statically
configured fallback id was used". -/
theorem resolutionTag_not_actual_path_counterexample :
    (findProfileByEmail "me@x.io" (.ok 200 (.obj [("list", .arr [])]))).1 = none
    ∧ (getEffectiveProfileId ⟨"fallback", "src", some "me@x.io"⟩ ⟨2026, 10, 12⟩
         (.ok 200 (.obj [("list", .arr [])])) (.ok 200 .null)).1 = "fallback"
    ∧ (callTool ⟨"fallback", "src", some "me@x.io"⟩ ⟨2026, 10, 12⟩
         ⟨.ok 200 (.obj [("itemId", .str "claude-desktop")]), .ok 200 .null,
          .ok 200 (.obj [("list", .arr [])]), .ok 200 .null, .ok 200 .null⟩
         "update_my_profile" (.obj [("properties", .obj [("age", .num 30)])])).1
      = .ok (.success (updateSuccessPayload ⟨"fallback", "src", some "me@x.io"⟩
          ⟨2026, 10, 12⟩ "fallback" (.obj [("age", .num 30)])))
    ∧ getField (updateSuccessPayload ⟨"fallback", "src", some "me@x.io"⟩
         ⟨2026, 10, 12⟩ "fallback" (.obj [("age", .num 30)])) "source"
      = some (.str "email_lookup") :=
  ⟨rfl, rfl, rfl, rfl⟩

/-- C1 amended: the success payload's resolution-path tag reports whether an
email is configured, not the path actually used: it is `email_lookup`
exactly when `UNOMI_EMAIL` is set — even when the lookup found no match and
the environment fallback id was used — and `environment` only when no email
is configured. This holds for both `update_my_profile` and
`get_my_profile`. -/
theorem resolutionTag_reflects_email_config (cfg : Config) (d : UTCDate)
    (env : Env) (args1 args2 data : Json) (tr rtr : List RemoteCall)
    (pid : String) (st : Nat)
    (hv1 : isValidUpdateMyProfileArgs args1 = true)
    (hv2 : isValidGetMyProfileArgs args2 = true)
    (hE : ensureScopeExists "claude-desktop" env.scopeGetResp env.scopePostResp
          = (.ok (), tr))
    (hR : getEffectiveProfileId cfg d env.lookupResp env.emailWriteResp
          = (pid, rtr))
    (hpr : env.primaryResp = .ok st data) :
    (callTool cfg d env "update_my_profile" args1).1
      = .ok (.success (updateSuccessPayload cfg d pid
          ((getField args1 "properties").getD .null)))
    ∧ getField (updateSuccessPayload cfg d pid
        ((getField args1 "properties").getD .null)) "source"
      = some (.str (if cfg.email.isSome then "email_lookup" else "environment"))
    ∧ (callTool cfg d env "get_my_profile" args2).1
      = .ok (.success (getMyProfilePayload cfg d pid data))
    ∧ getField (getMyProfilePayload cfg d pid data) "source"
      = some (.str (if cfg.email.isSome then "email_lookup" else "environment")) := by
  refine ⟨?_, rfl, ?_, getMyProfilePayload_source_field cfg d pid data⟩
  · unfold callTool
    rw [if_neg (by decide), if_pos (by decide), hE]
    dsimp only
    rw [if_pos hv1, hR, hpr]
  · unfold callTool
    rw [if_neg (by decide), if_neg (by decide), if_pos (by decide), hE]
    dsimp only
    rw [if_pos hv2, hR, hpr]

/-- Witness for C1: email configured, lookup without a match, both tools
succeeding; the tag evaluates to `email_lookup`. -/
theorem resolutionTag_reflects_email_config_witness :
    isValidUpdateMyProfileArgs (.obj [("properties", .obj [("age", .num 30)])]) = true
    ∧ isValidGetMyProfileArgs (.obj []) = true
    ∧ ensureScopeExists "claude-desktop"
        (.ok 200 (.obj [("itemId", .str "claude-desktop")])) (.ok 200 .null)
        = (.ok (), [.scopeGet "claude-desktop"])
    ∧ getEffectiveProfileId ⟨"fallback", "src", some "me@x.io"⟩ ⟨2026, 10, 12⟩
        (.ok 200 (.obj [("list", .arr [])])) (.ok 200 .null)
        = ("fallback",
           [.searchPost (emailSearchBody "me@x.io"),
            .contextPost (emailWriteContext ⟨"fallback", "src", some "me@x.io"⟩
                            "me@x.io" ⟨2026, 10, 12⟩)])
    ∧ ((callTool ⟨"fallback", "src", some "me@x.io"⟩ ⟨2026, 10, 12⟩
          ⟨.ok 200 (.obj [("itemId", .str "claude-desktop")]), .ok 200 .null,
           .ok 200 (.obj [("list", .arr [])]), .ok 200 .null, .ok 200 .null⟩
          "update_my_profile" (.obj [("properties", .obj [("age", .num 30)])])).1
        = .ok (.success (updateSuccessPayload ⟨"fallback", "src", some "me@x.io"⟩
            ⟨2026, 10, 12⟩ "fallback"
            ((getField (.obj [("properties", .obj [("age", .num 30)])])
               "properties").getD .null)))
       ∧ getField (updateSuccessPayload ⟨"fallback", "src", some "me@x.io"⟩
           ⟨2026, 10, 12⟩ "fallback"
           ((getField (.obj [("properties", .obj [("age", .num 30)])])
              "properties").getD .null)) "source"
         = some (.str (if (some "me@x.io").isSome then "email_lookup" else "environment"))
       ∧ (callTool ⟨"fallback", "src", some "me@x.io"⟩ ⟨2026, 10, 12⟩
            ⟨.ok 200 (.obj [("itemId", .str "claude-desktop")]), .ok 200 .null,
             .ok 200 (.obj [("list", .arr [])]), .ok 200 .null, .ok 200 .null⟩
            "get_my_profile" (.obj [])).1
         = .ok (.success (getMyProfilePayload ⟨"fallback", "src", some "me@x.io"⟩
             ⟨2026, 10, 12⟩ "fallback" .null))
       ∧ getField (getMyProfilePayload ⟨"fallback", "src", some "me@x.io"⟩
           ⟨2026, 10, 12⟩ "fallback" .null) "source"
         = some (.str (if (some "me@x.io").isSome then "email_lookup" else "environment"))) :=
  ⟨rfl, rfl, rfl, rfl,
   resolutionTag_reflects_email_config ⟨"fallback", "src", some "me@x.io"⟩
     ⟨2026, 10, 12⟩
     ⟨.ok 200 (.obj [("itemId", .str "claude-desktop")]), .ok 200 .null,
      .ok 200 (.obj [("list", .arr [])]), .ok 200 .null, .ok 200 .null⟩
     (.obj [("properties", .obj [("age", .num 30)])]) (.obj []) .null
     [.scopeGet "claude-desktop"]
     [.searchPost (emailSearchBody "me@x.io"),
      .contextPost (emailWriteContext ⟨"fallback", "src", some "me@x.io"⟩
                      "me@x.io" ⟨2026, 10, 12⟩)]
     "fallback" 200 rfl rfl rfl rfl rfl⟩

end UnomiServer
